import Mathlib

/-!
Shallow embedding of the session-state verification engine and the
swapchain-format classification queries of the OpenXR CTS corpus.

The runtime under test is modelled as the data it delivers to the driver:
the event queue is a list of events, and each polling iteration of a loop
sees the queue contents available at that wake-up.  A deadline (a
`CountdownTimer`) is modelled as the finite list of loop iterations that
happen before the timer expires, so "the deadline elapsed" is "the list of
iterations is exhausted".  Frame submission is modelled by the result codes
the runtime returns for the wait/begin/end frame calls of that iteration.
-/

/-- Session lifecycle states (`XrSessionState`). -/
inductive XrSessionState
  | unknown
  | idle
  | ready
  | synchronized
  | visible
  | focused
  | stopping
  | lossPending
  | exiting
deriving DecidableEq, Repr

/-- The result codes (`XrResult`) relevant to the session-state scenarios.
`success` and `eventUnavailable` are non-error codes; the `error*`
constructors model the failure codes checked by the tests, with
`errorRuntimeFailure` standing for any other error code. -/
inductive XrResult
  | success
  | eventUnavailable
  | errorSessionNotRunning
  | errorSessionRunning
  | errorSessionNotStopping
  | errorRuntimeFailure
deriving DecidableEq, Repr

/-- `XR_FAILED(result)`: the check done by `XRC_CHECK_THROW_XRCMD`. -/
def XrResult.isError : XrResult → Bool
  | .errorSessionNotRunning => true
  | .errorSessionRunning => true
  | .errorSessionNotStopping => true
  | .errorRuntimeFailure => true
  | .success => false
  | .eventUnavailable => false

/-- An event record popped from the runtime event queue
(`XrEventDataBuffer`): either a session-state-changed event carrying the
new state and a timestamp, or any other event type (the tag stands for the
structure type of a non-state-changed event). -/
inductive XrEvent
  | sessionStateChanged (state : XrSessionState) (time : Int)
  | other (tag : Nat)
deriving DecidableEq, Repr

/-- Whether the event buffer has type
`XR_TYPE_EVENT_DATA_SESSION_STATE_CHANGED`. -/
def XrEvent.isSessionStateChanged : XrEvent → Bool
  | .sessionStateChanged _ _ => true
  | .other _ => false

/-- The results the runtime returns for the three calls of one
`submitFrame` cycle, together with the predicted display time returned by
`xrWaitFrame` (which `submitFrame` forwards into `xrEndFrame`). -/
structure FrameCallResults where
  waitFrameResult : XrResult
  beginFrameResult : XrResult
  endFrameResult : XrResult
  predictedDisplayTime : Int
deriving DecidableEq, Repr

/-- Outcome of `submitFramesUntilSessionState`: `success` when the
expected state event was observed; `stateMismatch` when the first observed
state event carried a different state (the `REQUIRE` hard failure);
`frameError` when a frame call threw; `timeout` when the countdown expired
with no session-state-changed event observed (the `FAIL` path). -/
inductive DriveResult
  | success
  | stateMismatch (observed : XrSessionState)
  | frameError (code : XrResult)
  | timeout
deriving DecidableEq, Repr

instance {ε α : Type} [DecidableEq ε] [DecidableEq α] : DecidableEq (Except ε α) :=
  fun a b =>
    match a, b with
    | Except.error x, Except.error y =>
      if h : x = y then Decidable.isTrue (by rw [h])
      else Decidable.isFalse (by intro hc; cases hc; exact h rfl)
    | Except.ok x, Except.ok y =>
      if h : x = y then Decidable.isTrue (by rw [h])
      else Decidable.isFalse (by intro hc; cases hc; exact h rfl)
    | Except.error _, Except.ok _ => Decidable.isFalse (by intro hc; cases hc)
    | Except.ok _, Except.error _ => Decidable.isFalse (by intro hc; cases hc)

namespace Conformance

/-- `tryReadEvent`: one non-blocking `xrPollEvent`.  On a non-empty queue
the head event is popped and the call returns `XR_SUCCESS`; on an empty
queue it returns `XR_EVENT_UNAVAILABLE` (modelled as `none`). -/
def tryReadEvent : List XrEvent → Option XrEvent × List XrEvent
  | [] => (none, [])
  | e :: rest => (some e, rest)

/-- `tryGetNextSessionState`: loops `tryReadEvent`, discarding events whose
type is not `XR_TYPE_EVENT_DATA_SESSION_STATE_CHANGED`, until a
session-state-changed event is found (copied out and returned) or the
queue is drained. Returns the found event (state and time) and the queue
contents left unread. -/
def tryGetNextSessionState : List XrEvent → Option (XrSessionState × Int) × List XrEvent
  | [] => (none, [])
  | XrEvent.sessionStateChanged s t :: rest => (some (s, t), rest)
  | XrEvent.other _ :: rest => tryGetNextSessionState rest

/-- `waitForNextSessionState`: loops `tryGetNextSessionState` until an
event is found or the countdown expires, sleeping 5ms between wake-ups.
Each entry of `wakes` is the queue contents seen at one wake-up; the
countdown expiring is the list being exhausted. -/
def waitForNextSessionState : List (List XrEvent) → Option (XrSessionState × Int)
  | [] => none
  | q :: rest =>
    match (tryGetNextSessionState q).1 with
    | some found => some found
    | none => waitForNextSessionState rest

/-- Default `duration` parameter of `waitForNextSessionState`: 1s, in
nanoseconds. -/
def waitDefaultDurationNs : Nat := 1000000000

/-- `submitFrame`: the wait/begin/end frame cycle.  `XRC_CHECK_THROW_XRCMD`
throws on the first failing call; on success the predicted display time
obtained from `xrWaitFrame` is the one passed to `xrEndFrame`. -/
def submitFrame (fr : FrameCallResults) : Except XrResult Int :=
  if fr.waitFrameResult.isError then Except.error fr.waitFrameResult
  else if fr.beginFrameResult.isError then Except.error fr.beginFrameResult
  else if fr.endFrameResult.isError then Except.error fr.endFrameResult
  else Except.ok fr.predictedDisplayTime

/-- Default `duration` parameter of `submitFramesUntilSessionState`: 30s,
in nanoseconds. -/
def driveDefaultDurationNs : Nat := 30000000000

/-- `submitFramesUntilSessionState`: while the countdown has not expired,
poll once (non-blocking) for a session-state-changed event; if one is
found `REQUIRE` it to carry exactly the expected state and return;
otherwise submit one frame and loop.  When the countdown expires, `FAIL`.
Each entry of `iters` is one loop iteration: the queue contents seen by
its poll, and the frame-call results its `submitFrame` would get. -/
def submitFramesUntilSessionState (expected : XrSessionState) :
    List (List XrEvent × FrameCallResults) → DriveResult
  | [] => DriveResult.timeout
  | (q, fr) :: rest =>
    match (tryGetNextSessionState q).1 with
    | some (s, _) =>
      if s = expected then DriveResult.success else DriveResult.stateMismatch s
    | none =>
      match submitFrame fr with
      | Except.error code => DriveResult.frameError code
      | Except.ok _ => submitFramesUntilSessionState expected rest

/-- The first session-state-changed event in a flat queue, with its
timestamp: exactly what one `tryGetNextSessionState` call observes. -/
def firstSessionState (q : List XrEvent) : Option (XrSessionState × Int) :=
  (tryGetNextSessionState q).1

/-- The state carried by the first session-state-changed event in a flat
queue, if any. -/
def firstState (q : List XrEvent) : Option XrSessionState :=
  (firstSessionState q).map Prod.fst

/-- The state a `waitForNextSessionState` call observes over a sequence of
wake-ups (the tests then compare `evt.state` against an expected state). -/
def observedState (wakes : List (List XrEvent)) : Option XrSessionState :=
  (waitForNextSessionState wakes).map Prod.fst

/-- The queue contents of each iteration of a
`submitFramesUntilSessionState` call. -/
def driveQueues (iters : List (List XrEvent × FrameCallResults)) : List (List XrEvent) :=
  iters.map Prod.fst

/-- The state a `submitFramesUntilSessionState` call observes: the first
session-state-changed event delivered across its iterations. -/
def driveObservedState (iters : List (List XrEvent × FrameCallResults)) : Option XrSessionState :=
  firstState (driveQueues iters).flatten

end Conformance

namespace Conformance2

/-!
The same five helper functions appear a second time, in the second copy of
the test translation unit (lines 388-450 of the corpus file).  This
namespace embeds that second copy, to be compared with the first.
-/

/-- Second copy of `tryReadEvent` (corpus lines 388-394). -/
def tryReadEvent : List XrEvent → Option XrEvent × List XrEvent
  | [] => (none, [])
  | e :: rest => (some e, rest)

/-- Second copy of `tryGetNextSessionState` (corpus lines 396-406). -/
def tryGetNextSessionState : List XrEvent → Option (XrSessionState × Int) × List XrEvent
  | [] => (none, [])
  | XrEvent.sessionStateChanged s t :: rest => (some (s, t), rest)
  | XrEvent.other _ :: rest => tryGetNextSessionState rest

/-- Second copy of `waitForNextSessionState` (corpus lines 408-420). -/
def waitForNextSessionState : List (List XrEvent) → Option (XrSessionState × Int)
  | [] => none
  | q :: rest =>
    match (tryGetNextSessionState q).1 with
    | some found => some found
    | none => waitForNextSessionState rest

/-- Second copy of `submitFrame` (corpus lines 422-432). -/
def submitFrame (fr : FrameCallResults) : Except XrResult Int :=
  if fr.waitFrameResult.isError then Except.error fr.waitFrameResult
  else if fr.beginFrameResult.isError then Except.error fr.beginFrameResult
  else if fr.endFrameResult.isError then Except.error fr.endFrameResult
  else Except.ok fr.predictedDisplayTime

/-- Second copy of `submitFramesUntilSessionState` (corpus lines 434-450). -/
def submitFramesUntilSessionState (expected : XrSessionState) :
    List (List XrEvent × FrameCallResults) → DriveResult
  | [] => DriveResult.timeout
  | (q, fr) :: rest =>
    match (tryGetNextSessionState q).1 with
    | some (s, _) =>
      if s = expected then DriveResult.success else DriveResult.stateMismatch s
    | none =>
      match submitFrame fr with
      | Except.error code => DriveResult.frameError code
      | Except.ok _ => submitFramesUntilSessionState expected rest

end Conformance2

namespace SwapchainFormat

/-- The `ColorIntegerRange` enumeration of `swapchain_parameters.h`
(declared underlying values 0 through 7). -/
inductive ColorIntegerRange
  | NoIntegerColor
  | u8
  | s8
  | u16
  | s16
  | u32
  | s32
  | uRGB10A2
deriving DecidableEq, Repr

/-- The underlying integer value of each declared enumerator. -/
def ColorIntegerRange.toCode : ColorIntegerRange → Nat
  | .NoIntegerColor => 0
  | .u8 => 1
  | .s8 => 2
  | .u16 => 3
  | .s16 => 4
  | .u32 => 5
  | .s32 => 6
  | .uRGB10A2 => 7

/-- The two `std::logic_error` conditions of the classification queries:
querying a non-integer color, and the defensive `default` branch for an
enum value matching no declared case. -/
inductive ClassificationError
  | onlyValidForIntegerColors
  | missingCase
deriving DecidableEq, Repr

/-- The `switch` of `ColorIntegerRangeBits`, on the underlying enum value:
case 0 (`NoIntegerColor`) throws; cases 1-2 (`u8`, `s8`) return 8; cases
3-4 (`u16`, `s16`) return 16; cases 5-6 (`u32`, `s32`) return 32; case 7
(`uRGB10A2`) returns 10; `default` throws "Missing case". -/
def ColorIntegerRangeBitsSwitch (code : Nat) : Except ClassificationError Nat :=
  if code = 0 then Except.error ClassificationError.onlyValidForIntegerColors
  else if code = 1 ∨ code = 2 then Except.ok 8
  else if code = 3 ∨ code = 4 then Except.ok 16
  else if code = 5 ∨ code = 6 then Except.ok 32
  else if code = 7 then Except.ok 10
  else Except.error ClassificationError.missingCase

/-- `ColorIntegerRangeBits` applied to a declared enumerator. -/
def ColorIntegerRangeBits (c : ColorIntegerRange) : Except ClassificationError Nat :=
  ColorIntegerRangeBitsSwitch c.toCode

/-- The `switch` of `ColorIntegerRangeIsSigned`, on the underlying enum
value: case 0 (`NoIntegerColor`) throws; cases 1, 3, 5, 7 (`u8`, `u16`,
`u32`, `uRGB10A2`) return false; cases 2, 4, 6 (`s8`, `s16`, `s32`) return
true; `default` throws "Missing case". -/
def ColorIntegerRangeIsSignedSwitch (code : Nat) : Except ClassificationError Bool :=
  if code = 0 then Except.error ClassificationError.onlyValidForIntegerColors
  else if code = 1 ∨ code = 3 ∨ code = 5 ∨ code = 7 then Except.ok false
  else if code = 2 ∨ code = 4 ∨ code = 6 then Except.ok true
  else Except.error ClassificationError.missingCase

/-- `ColorIntegerRangeIsSigned` applied to a declared enumerator. -/
def ColorIntegerRangeIsSigned (c : ColorIntegerRange) : Except ClassificationError Bool :=
  ColorIntegerRangeIsSignedSwitch c.toCode

end SwapchainFormat

namespace Conformance

/-- One run of the forward part of the "Cycle through all states" scenario
(corpus lines 461-475): the wake-up queues of the two
`waitForNextSessionState` calls, the `xrBeginSession` result, and the
iterations of the three `submitFramesUntilSessionState` calls. -/
structure ForwardRun where
  idlePhase : List (List XrEvent)
  readyPhase : List (List XrEvent)
  beginSessionResult : XrResult
  syncPhase : List (List XrEvent × FrameCallResults)
  visiblePhase : List (List XrEvent × FrameCallResults)
  focusedPhase : List (List XrEvent × FrameCallResults)
deriving DecidableEq, Repr

/-- The forward-lifecycle checks of "Cycle through all states", in source
order: wait must observe IDLE, wait must observe READY, `xrBeginSession`
must succeed, then drive to SYNCHRONIZED, VISIBLE and FOCUSED. Every
`REQUIRE` must hold for the scenario to pass. -/
def forwardLifecycleVerifier (run : ForwardRun) : Bool :=
  decide (observedState run.idlePhase = some XrSessionState.idle) &&
  decide (observedState run.readyPhase = some XrSessionState.ready) &&
  decide (run.beginSessionResult = XrResult.success) &&
  decide (submitFramesUntilSessionState XrSessionState.synchronized run.syncPhase = DriveResult.success) &&
  decide (submitFramesUntilSessionState XrSessionState.visible run.visiblePhase = DriveResult.success) &&
  decide (submitFramesUntilSessionState XrSessionState.focused run.focusedPhase = DriveResult.success)

/-- The sequence of session states observed via session-state-changed
events across the five polling phases of a forward run (each phase
observes at most the first such event its queues deliver). -/
def forwardObservedStates (run : ForwardRun) : List XrSessionState :=
  (observedState run.idlePhase).toList ++
  (observedState run.readyPhase).toList ++
  (driveObservedState run.syncPhase).toList ++
  (driveObservedState run.visiblePhase).toList ++
  (driveObservedState run.focusedPhase).toList

/-- One run of the teardown tail of "Cycle through all states" (corpus
lines 486-492, likewise 140-146): after STOPPING has been observed, the
wake-up queues of the 1-second `waitForNextSessionState` window, the
`xrEndSession` result, and the iterations of the drive to IDLE. -/
structure TeardownRun where
  stoppingWindow : List (List XrEvent)
  endSessionResult : XrResult
  idlePhase : List (List XrEvent × FrameCallResults)
deriving DecidableEq, Repr

/-- The teardown checks, in source order: the 1-second window after
STOPPING must observe no session-state-changed event ("Premature
progression from STOPPING to IDLE state"), `xrEndSession` must return
success, and the subsequent drive must observe IDLE. -/
def teardownVerifier (run : TeardownRun) : Bool :=
  decide (observedState run.stoppingWindow = none) &&
  decide (run.endSessionResult = XrResult.success) &&
  decide (submitFramesUntilSessionState XrSessionState.idle run.idlePhase = DriveResult.success)

/-- One run of the "Try calls out of turn" scenario (corpus lines
156-294): the lifecycle phases interleaved with the probed out-of-turn
calls, each probe recorded as the result code the runtime returned. -/
structure OutOfTurnRun where
  waitFrameBeforeIdleResult : XrResult
  idlePhase : List (List XrEvent)
  waitFrameAfterIdleResult : XrResult
  readyPhase : List (List XrEvent)
  waitFrameInReadyResult : XrResult
  beginSessionResult : XrResult
  usingGraphicsPlugin : Bool
  readyWindow : List (List XrEvent)
  secondBeginInReadyResult : XrResult
  syncPhase : List (List XrEvent × FrameCallResults)
  beginInSynchronizedResult : XrResult
  visiblePhase : List (List XrEvent × FrameCallResults)
  beginInVisibleResult : XrResult
  focusedPhase : List (List XrEvent × FrameCallResults)
  beginInFocusedResult : XrResult
  endInFocusedResult : XrResult
  requestExitResult : XrResult
  beginAfterExitInFocusedResult : XrResult
  visibleDownPhase : List (List XrEvent × FrameCallResults)
  beginAfterExitInVisibleResult : XrResult
  syncDownPhase : List (List XrEvent × FrameCallResults)
  beginAfterExitInSynchronizedResult : XrResult
  stoppingPhase : List (List XrEvent × FrameCallResults)
  beginInStoppingResult : XrResult
  stoppingWindow : List (List XrEvent)
  endSessionResult : XrResult
  waitFrameAfterEndResult : XrResult
  idleDownPhase : List (List XrEvent × FrameCallResults)
  waitFrameInIdleShutdownResult : XrResult
  exitingPhase : List (List XrEvent × FrameCallResults)
  waitFrameInExitingResult : XrResult
deriving DecidableEq, Repr

/-- The checks of "Try calls out of turn", in source order.  `REQUIRE` and
`CHECK` both fail the scenario when their condition is false, so a run
passes exactly when the conjunction holds.  The premature READY
progression window is only polled when a graphics plugin is in use. -/
def outOfTurnVerifier (run : OutOfTurnRun) : Bool :=
  decide (run.waitFrameBeforeIdleResult = XrResult.errorSessionNotRunning) &&
  decide (observedState run.idlePhase = some XrSessionState.idle) &&
  decide (run.waitFrameAfterIdleResult = XrResult.errorSessionNotRunning) &&
  decide (observedState run.readyPhase = some XrSessionState.ready) &&
  decide (run.waitFrameInReadyResult = XrResult.errorSessionNotRunning) &&
  decide (run.beginSessionResult = XrResult.success) &&
  (!run.usingGraphicsPlugin || decide (observedState run.readyWindow = none)) &&
  decide (run.secondBeginInReadyResult = XrResult.errorSessionRunning) &&
  decide (submitFramesUntilSessionState XrSessionState.synchronized run.syncPhase = DriveResult.success) &&
  decide (run.beginInSynchronizedResult = XrResult.errorSessionRunning) &&
  decide (submitFramesUntilSessionState XrSessionState.visible run.visiblePhase = DriveResult.success) &&
  decide (run.beginInVisibleResult = XrResult.errorSessionRunning) &&
  decide (submitFramesUntilSessionState XrSessionState.focused run.focusedPhase = DriveResult.success) &&
  decide (run.beginInFocusedResult = XrResult.errorSessionRunning) &&
  decide (run.endInFocusedResult = XrResult.errorSessionNotStopping) &&
  decide (run.requestExitResult = XrResult.success) &&
  decide (run.beginAfterExitInFocusedResult = XrResult.errorSessionRunning) &&
  decide (submitFramesUntilSessionState XrSessionState.visible run.visibleDownPhase = DriveResult.success) &&
  decide (run.beginAfterExitInVisibleResult = XrResult.errorSessionRunning) &&
  decide (submitFramesUntilSessionState XrSessionState.synchronized run.syncDownPhase = DriveResult.success) &&
  decide (run.beginAfterExitInSynchronizedResult = XrResult.errorSessionRunning) &&
  decide (submitFramesUntilSessionState XrSessionState.stopping run.stoppingPhase = DriveResult.success) &&
  decide (run.beginInStoppingResult = XrResult.errorSessionRunning) &&
  decide (observedState run.stoppingWindow = none) &&
  decide (run.endSessionResult = XrResult.success) &&
  decide (run.waitFrameAfterEndResult = XrResult.errorSessionNotRunning) &&
  decide (submitFramesUntilSessionState XrSessionState.idle run.idleDownPhase = DriveResult.success) &&
  decide (run.waitFrameInIdleShutdownResult = XrResult.errorSessionNotRunning) &&
  decide (submitFramesUntilSessionState XrSessionState.exiting run.exitingPhase = DriveResult.success) &&
  decide (run.waitFrameInExitingResult = XrResult.errorSessionNotRunning)

/-- One run of the "Advance without frame submission" scenario (corpus
lines 543-559): whether a graphics plugin is in use, the `xrBeginSession`
result once READY has been reached, and the wake-up queues of the
1-second window polled with no frame submitted. -/
structure AdvanceRun where
  usingGraphicsPlugin : Bool
  beginSessionResult : XrResult
  readyWindow : List (List XrEvent)
deriving DecidableEq, Repr

/-- "Advance without frame submission": only exercised when a graphics
plugin is in use; `xrBeginSession` must succeed and the 1-second window
must observe no session-state-changed event ("Premature progression from
READY to SYNCHRONIZED state"). -/
def advanceWithoutFramesVerifier (run : AdvanceRun) : Bool :=
  !run.usingGraphicsPlugin ||
  (decide (run.beginSessionResult = XrResult.success) &&
   decide (observedState run.readyWindow = none))

/-- One call site of `waitForNextSessionState` in the corpus test code:
whether the call asserts the wait returns true (a transition must be
observed) or false (no transition may be observed within the window), and
the deadline the call runs under, in nanoseconds. -/
structure WaitCallSite where
  expectsEvent : Bool
  durationNs : Nat
deriving DecidableEq, Repr

/-- Every `waitForNextSessionState` call site in the corpus test file, in
source order.  No site passes an explicit duration, so each runs under the
1-second default.  First copy: lines 115 and 121 (advance to IDLE/READY),
142 (STOPPING window), 172 and 186 (IDLE/READY), 204 (READY window under
graphics), 271 (STOPPING window), 350 (READY window under graphics).
Second copy: lines 463 and 466 (IDLE/READY), 488 (STOPPING window), 557
(READY window under graphics). -/
def waitForNextSessionStateCallSites : List WaitCallSite :=
  [⟨true, waitDefaultDurationNs⟩,
   ⟨true, waitDefaultDurationNs⟩,
   ⟨false, waitDefaultDurationNs⟩,
   ⟨true, waitDefaultDurationNs⟩,
   ⟨true, waitDefaultDurationNs⟩,
   ⟨false, waitDefaultDurationNs⟩,
   ⟨false, waitDefaultDurationNs⟩,
   ⟨false, waitDefaultDurationNs⟩,
   ⟨true, waitDefaultDurationNs⟩,
   ⟨true, waitDefaultDurationNs⟩,
   ⟨false, waitDefaultDurationNs⟩,
   ⟨false, waitDefaultDurationNs⟩]

end Conformance

namespace Conformance

/-- Frame-call results for a frame cycle in which all three calls
succeed. -/
def frameOk : FrameCallResults :=
  ⟨XrResult.success, XrResult.success, XrResult.success, 0⟩

/-- A sample drive: the first iteration sees an empty queue (so a frame is
submitted), the second sees a non-matching event followed by a
SYNCHRONIZED state-changed event. -/
def sampleDriveIters : List (List XrEvent × FrameCallResults) :=
  [([XrEvent.other 3], frameOk),
   ([XrEvent.other 4, XrEvent.sessionStateChanged XrSessionState.synchronized 9], frameOk)]

/-- A sample forward run delivering IDLE, READY, SYNCHRONIZED, VISIBLE and
FOCUSED in order. -/
def sampleForwardRun : ForwardRun :=
  { idlePhase := [[], [XrEvent.sessionStateChanged XrSessionState.idle 1]]
    readyPhase := [[XrEvent.other 7, XrEvent.sessionStateChanged XrSessionState.ready 2]]
    beginSessionResult := XrResult.success
    syncPhase := [([], frameOk), ([XrEvent.sessionStateChanged XrSessionState.synchronized 3], frameOk)]
    visiblePhase := [([XrEvent.sessionStateChanged XrSessionState.visible 4], frameOk)]
    focusedPhase := [([XrEvent.sessionStateChanged XrSessionState.focused 5], frameOk)] }

/-- A sample teardown run: nothing but a non-state-changed event in the
1-second window after STOPPING, a successful end-session call, and IDLE
observed next. -/
def sampleTeardownRun : TeardownRun :=
  { stoppingWindow := [[], [XrEvent.other 2]]
    endSessionResult := XrResult.success
    idlePhase := [([XrEvent.sessionStateChanged XrSessionState.idle 6], frameOk)] }

/-- A sample out-of-turn run in which the lifecycle advances normally and
every probed call returns the result code the specification requires. -/
def sampleOutOfTurnRun : OutOfTurnRun :=
  { waitFrameBeforeIdleResult := XrResult.errorSessionNotRunning
    idlePhase := [[XrEvent.sessionStateChanged XrSessionState.idle 1]]
    waitFrameAfterIdleResult := XrResult.errorSessionNotRunning
    readyPhase := [[XrEvent.sessionStateChanged XrSessionState.ready 2]]
    waitFrameInReadyResult := XrResult.errorSessionNotRunning
    beginSessionResult := XrResult.success
    usingGraphicsPlugin := true
    readyWindow := [[XrEvent.other 1], []]
    secondBeginInReadyResult := XrResult.errorSessionRunning
    syncPhase := [([XrEvent.sessionStateChanged XrSessionState.synchronized 3], frameOk)]
    beginInSynchronizedResult := XrResult.errorSessionRunning
    visiblePhase := [([XrEvent.sessionStateChanged XrSessionState.visible 4], frameOk)]
    beginInVisibleResult := XrResult.errorSessionRunning
    focusedPhase := [([XrEvent.sessionStateChanged XrSessionState.focused 5], frameOk)]
    beginInFocusedResult := XrResult.errorSessionRunning
    endInFocusedResult := XrResult.errorSessionNotStopping
    requestExitResult := XrResult.success
    beginAfterExitInFocusedResult := XrResult.errorSessionRunning
    visibleDownPhase := [([XrEvent.sessionStateChanged XrSessionState.visible 6], frameOk)]
    beginAfterExitInVisibleResult := XrResult.errorSessionRunning
    syncDownPhase := [([XrEvent.sessionStateChanged XrSessionState.synchronized 7], frameOk)]
    beginAfterExitInSynchronizedResult := XrResult.errorSessionRunning
    stoppingPhase := [([XrEvent.sessionStateChanged XrSessionState.stopping 8], frameOk)]
    beginInStoppingResult := XrResult.errorSessionRunning
    stoppingWindow := [[XrEvent.other 9]]
    endSessionResult := XrResult.success
    waitFrameAfterEndResult := XrResult.errorSessionNotRunning
    idleDownPhase := [([XrEvent.sessionStateChanged XrSessionState.idle 10], frameOk)]
    waitFrameInIdleShutdownResult := XrResult.errorSessionNotRunning
    exitingPhase := [([XrEvent.sessionStateChanged XrSessionState.exiting 11], frameOk)]
    waitFrameInExitingResult := XrResult.errorSessionNotRunning }

/-- A sample advance-without-frames run under a graphics plugin: only
non-state-changed events are delivered during the 1-second window. -/
def sampleAdvanceRun : AdvanceRun :=
  { usingGraphicsPlugin := true
    beginSessionResult := XrResult.success
    readyWindow := [[XrEvent.other 1], []] }

end Conformance

namespace Conformance

theorem firstSessionState_append (a b : List XrEvent) :
    firstSessionState (a ++ b) =
      match firstSessionState a with
      | some found => some found
      | none => firstSessionState b := by
  induction a with
  | nil => rfl
  | cons e rest ih =>
    cases e with
    | sessionStateChanged s t => rfl
    | other tag =>
      simpa [firstSessionState, tryGetNextSessionState] using ih

theorem firstState_append (a b : List XrEvent) :
    firstState (a ++ b) =
      match firstState a with
      | some s => some s
      | none => firstState b := by
  rw [firstState, firstSessionState_append]
  cases h : firstSessionState a with
  | none => simp [firstState, h]
  | some found => simp [firstState, h]

theorem firstSessionState_eq_none_iff (q : List XrEvent) :
    firstSessionState q = none ↔ ∀ e ∈ q, e.isSessionStateChanged = false := by
  induction q with
  | nil => simp [firstSessionState, tryGetNextSessionState]
  | cons e rest ih =>
    cases e with
    | sessionStateChanged s t =>
      simp [firstSessionState, tryGetNextSessionState, XrEvent.isSessionStateChanged]
    | other tag =>
      simp [firstSessionState, tryGetNextSessionState, XrEvent.isSessionStateChanged] at ih ⊢
      exact ih

theorem firstState_eq_none_iff (q : List XrEvent) :
    firstState q = none ↔ ∀ e ∈ q, e.isSessionStateChanged = false := by
  rw [firstState, Option.map_eq_none']
  exact firstSessionState_eq_none_iff q

theorem waitForNextSessionState_eq_firstSessionState (wakes : List (List XrEvent)) :
    waitForNextSessionState wakes = firstSessionState wakes.flatten := by
  induction wakes with
  | nil => rfl
  | cons q rest ih =>
    rw [List.flatten_cons, firstSessionState_append]
    show (match (tryGetNextSessionState q).1 with
          | some found => some found
          | none => waitForNextSessionState rest) = _
    rw [ih]
    rfl

theorem observedState_eq_none_iff (wakes : List (List XrEvent)) :
    observedState wakes = none ↔ ∀ e ∈ wakes.flatten, e.isSessionStateChanged = false := by
  rw [observedState, waitForNextSessionState_eq_firstSessionState, Option.map_eq_none']
  exact firstSessionState_eq_none_iff _

end Conformance

namespace Conformance

theorem observedState_eq_firstState (wakes : List (List XrEvent)) :
    observedState wakes = firstState wakes.flatten := by
  rw [observedState, waitForNextSessionState_eq_firstSessionState, firstState]

theorem tryGetNextSessionState_skips_discarded (pre : List XrEvent) (s : XrSessionState)
    (t : Int) (post : List XrEvent)
    (hpre : ∀ e ∈ pre, e.isSessionStateChanged = false) :
    tryGetNextSessionState (pre ++ XrEvent.sessionStateChanged s t :: post) = (some (s, t), post) := by
  induction pre with
  | nil => rfl
  | cons e rest ih =>
    cases e with
    | sessionStateChanged a b =>
      have := hpre (XrEvent.sessionStateChanged a b) (List.mem_cons_self _ _)
      simp [XrEvent.isSessionStateChanged] at this
    | other tag =>
      have hrest : ∀ e ∈ rest, e.isSessionStateChanged = false :=
        fun e he => hpre e (List.mem_cons_of_mem _ he)
      simpa [tryGetNextSessionState] using ih hrest

theorem tryGetNextSessionState_none_drains (q : List XrEvent)
    (h : (tryGetNextSessionState q).1 = none) :
    tryGetNextSessionState q = (none, []) := by
  induction q with
  | nil => rfl
  | cons e rest ih =>
    cases e with
    | sessionStateChanged s t => simp [tryGetNextSessionState] at h
    | other tag =>
      simp only [tryGetNextSessionState] at h ⊢
      exact ih h

theorem drive_eq (expected : XrSessionState) (iters : List (List XrEvent × FrameCallResults))
    (hfr : ∀ p ∈ iters, (submitFrame p.2).isOk = true) :
    submitFramesUntilSessionState expected iters =
      (driveObservedState iters).elim DriveResult.timeout
        (fun s => if s = expected then DriveResult.success else DriveResult.stateMismatch s) := by
  induction iters with
  | nil => rfl
  | cons p rest ih =>
    obtain ⟨q, fr⟩ := p
    have hok : (submitFrame fr).isOk = true := hfr (q, fr) (List.mem_cons_self _ _)
    have hrest : ∀ p ∈ rest, (submitFrame p.2).isOk = true :=
      fun p hp => hfr p (List.mem_cons_of_mem _ hp)
    cases hq : (tryGetNextSessionState q).1 with
    | some found =>
      obtain ⟨s, t⟩ := found
      have hfq : firstState q = some s := by
        rw [firstState, firstSessionState, hq]
        rfl
      have hobs : driveObservedState ((q, fr) :: rest) = some s := by
        simp only [driveObservedState, driveQueues, List.map_cons, List.flatten_cons]
        rw [firstState_append, hfq]
      rw [hobs]
      simp [submitFramesUntilSessionState, hq]
    | none =>
      have hfq : firstState q = none := by
        rw [firstState, firstSessionState, hq]
        rfl
      have hobs : driveObservedState ((q, fr) :: rest) = driveObservedState rest := by
        simp only [driveObservedState, driveQueues, List.map_cons, List.flatten_cons]
        rw [firstState_append, hfq]
      cases hsf : submitFrame fr with
      | error code => rw [hsf] at hok; simp [Except.isOk, Except.toBool] at hok
      | ok v =>
        rw [hobs, ← ih hrest]
        simp only [submitFramesUntilSessionState, hq, hsf]

theorem drive_success_iff (expected : XrSessionState)
    (iters : List (List XrEvent × FrameCallResults))
    (hfr : ∀ p ∈ iters, (submitFrame p.2).isOk = true) :
    submitFramesUntilSessionState expected iters = DriveResult.success ↔
      driveObservedState iters = some expected := by
  rw [drive_eq expected iters hfr]
  cases hobs : driveObservedState iters with
  | none => simp
  | some s =>
    by_cases hs : s = expected
    · simp [hs]
    · simp [hs, Ne.symm hs]

theorem drive_timeout_iff (expected : XrSessionState)
    (iters : List (List XrEvent × FrameCallResults))
    (hfr : ∀ p ∈ iters, (submitFrame p.2).isOk = true) :
    submitFramesUntilSessionState expected iters = DriveResult.timeout ↔
      driveObservedState iters = none := by
  rw [drive_eq expected iters hfr]
  cases hobs : driveObservedState iters with
  | none => simp
  | some s =>
    by_cases hs : s = expected <;> simp [hs]

theorem drive_stateMismatch_iff (expected : XrSessionState)
    (iters : List (List XrEvent × FrameCallResults))
    (hfr : ∀ p ∈ iters, (submitFrame p.2).isOk = true) (s : XrSessionState) :
    submitFramesUntilSessionState expected iters = DriveResult.stateMismatch s ↔
      (driveObservedState iters = some s ∧ s ≠ expected) := by
  rw [drive_eq expected iters hfr]
  cases hobs : driveObservedState iters with
  | none => simp
  | some a =>
    by_cases ha : a = expected
    · subst ha
      simp only [Option.elim_some, if_pos rfl]
      constructor
      · intro h
        cases h
      · rintro ⟨h1, h2⟩
        cases h1
        exact absurd rfl h2
    · simp only [Option.elim_some, if_neg ha, Option.some_inj]
      constructor
      · intro h
        cases h
        exact ⟨rfl, ha⟩
      · rintro ⟨h1, h2⟩
        rw [h1]

theorem toList5_eq_iff (o1 o2 o3 o4 o5 : Option XrSessionState)
    (a b c d e : XrSessionState) :
    o1.toList ++ o2.toList ++ o3.toList ++ o4.toList ++ o5.toList = [a, b, c, d, e] ↔
      (o1 = some a ∧ o2 = some b ∧ o3 = some c ∧ o4 = some d ∧ o5 = some e) := by
  cases o1 <;> cases o2 <;> cases o3 <;> cases o4 <;> cases o5 <;> simp

end Conformance

theorem tryReadEvent_copies_agree (q : List XrEvent) :
    Conformance.tryReadEvent q = Conformance2.tryReadEvent q := by
  cases q <;> rfl

theorem tryGetNextSessionState_copies_agree (q : List XrEvent) :
    Conformance.tryGetNextSessionState q = Conformance2.tryGetNextSessionState q := by
  induction q with
  | nil => rfl
  | cons e rest ih =>
    cases e with
    | sessionStateChanged s t => rfl
    | other tag =>
      simpa [Conformance.tryGetNextSessionState, Conformance2.tryGetNextSessionState] using ih

theorem waitForNextSessionState_copies_agree (wakes : List (List XrEvent)) :
    Conformance.waitForNextSessionState wakes = Conformance2.waitForNextSessionState wakes := by
  induction wakes with
  | nil => rfl
  | cons q rest ih =>
    simp only [Conformance.waitForNextSessionState, Conformance2.waitForNextSessionState,
      tryGetNextSessionState_copies_agree, ih]

theorem submitFrame_copies_agree (fr : FrameCallResults) :
    Conformance.submitFrame fr = Conformance2.submitFrame fr := rfl

theorem submitFramesUntilSessionState_copies_agree (expected : XrSessionState)
    (iters : List (List XrEvent × FrameCallResults)) :
    Conformance.submitFramesUntilSessionState expected iters =
      Conformance2.submitFramesUntilSessionState expected iters := by
  induction iters with
  | nil => rfl
  | cons p rest ih =>
    obtain ⟨q, fr⟩ := p
    simp only [Conformance.submitFramesUntilSessionState,
      Conformance2.submitFramesUntilSessionState,
      tryGetNextSessionState_copies_agree, submitFrame_copies_agree, ih]

/-- Claim C1: for every expected session state and every deadline (run of
loop iterations) whose frame submissions succeed,
`submitFramesUntilSessionState` — which alternates one non-blocking poll
with one frame submission — returns success if and only if the first
session-state-changed event it observes carries exactly the expected
state; any other observed state is the hard `stateMismatch` test failure,
not a retry; and the deadline elapsing with no session-state-changed event
observed is the `timeout` failure ("Failed to reach expected session
state").  In particular it never returns success having observed a state
different from the expected one. -/
theorem C1_submitFramesUntil_first_event_decides (expected : XrSessionState)
    (iters : List (List XrEvent × FrameCallResults))
    (hfr : ∀ p ∈ iters, (Conformance.submitFrame p.2).isOk = true) :
    (Conformance.submitFramesUntilSessionState expected iters = DriveResult.success ↔
      Conformance.driveObservedState iters = some expected) ∧
    (Conformance.submitFramesUntilSessionState expected iters = DriveResult.timeout ↔
      Conformance.driveObservedState iters = none) ∧
    (∀ s, Conformance.submitFramesUntilSessionState expected iters = DriveResult.stateMismatch s ↔
      (Conformance.driveObservedState iters = some s ∧ s ≠ expected)) :=
  ⟨Conformance.drive_success_iff expected iters hfr,
   Conformance.drive_timeout_iff expected iters hfr,
   fun s => Conformance.drive_stateMismatch_iff expected iters hfr s⟩

/-- Witness for C1 at a concrete run: the sample drive observes
SYNCHRONIZED as its first session-state-changed event and succeeds. -/
theorem C1_submitFramesUntil_first_event_decides_witness :
    Conformance.submitFramesUntilSessionState XrSessionState.synchronized
      Conformance.sampleDriveIters = DriveResult.success :=
  (C1_submitFramesUntil_first_event_decides XrSessionState.synchronized
    Conformance.sampleDriveIters (by decide)).1.mpr (by decide)

/-- Claim C2: in the forward lifecycle scenario starting from session
creation, with the session begun (successfully) once READY is observed and
frames submitted between subsequent states, the verifier accepts a run if
and only if the sequence of session states observed via
session-state-changed events is exactly IDLE, READY, SYNCHRONIZED,
VISIBLE, FOCUSED in that order with no omissions or reorderings. -/
theorem C2_forwardLifecycle_accepts_iff_exact_sequence (run : Conformance.ForwardRun)
    (hbegin : run.beginSessionResult = XrResult.success)
    (hsync : ∀ p ∈ run.syncPhase, (Conformance.submitFrame p.2).isOk = true)
    (hvis : ∀ p ∈ run.visiblePhase, (Conformance.submitFrame p.2).isOk = true)
    (hfoc : ∀ p ∈ run.focusedPhase, (Conformance.submitFrame p.2).isOk = true) :
    Conformance.forwardLifecycleVerifier run = true ↔
      Conformance.forwardObservedStates run =
        [XrSessionState.idle, XrSessionState.ready, XrSessionState.synchronized,
         XrSessionState.visible, XrSessionState.focused] := by
  simp only [Conformance.forwardLifecycleVerifier, Conformance.forwardObservedStates,
    Bool.and_eq_true, decide_eq_true_eq, hbegin,
    Conformance.drive_success_iff XrSessionState.synchronized run.syncPhase hsync,
    Conformance.drive_success_iff XrSessionState.visible run.visiblePhase hvis,
    Conformance.drive_success_iff XrSessionState.focused run.focusedPhase hfoc]
  rw [Conformance.toList5_eq_iff]
  tauto

/-- Witness for C2 at a concrete run delivering exactly IDLE, READY,
SYNCHRONIZED, VISIBLE, FOCUSED. -/
theorem C2_forwardLifecycle_accepts_iff_exact_sequence_witness :
    Conformance.forwardLifecycleVerifier Conformance.sampleForwardRun = true :=
  (C2_forwardLifecycle_accepts_iff_exact_sequence Conformance.sampleForwardRun (by decide)
    (by decide) (by decide) (by decide)).mpr (by decide)

/-- Claim C3: in the teardown sequence, once STOPPING is observed the
verifier polls for 1 second before calling end-session; it accepts exactly
when no session-state-changed event is delivered in that window (any such
event fails the scenario as "Premature progression from STOPPING to IDLE
state"), the end-session call returns success, and the next observed state
is IDLE. -/
theorem C3_teardown_accepts_iff (run : Conformance.TeardownRun)
    (hfr : ∀ p ∈ run.idlePhase, (Conformance.submitFrame p.2).isOk = true) :
    Conformance.teardownVerifier run = true ↔
      ((∀ e ∈ run.stoppingWindow.flatten, e.isSessionStateChanged = false) ∧
       run.endSessionResult = XrResult.success ∧
       Conformance.driveObservedState run.idlePhase = some XrSessionState.idle) := by
  simp only [Conformance.teardownVerifier, Bool.and_eq_true, decide_eq_true_eq,
    Conformance.drive_success_iff XrSessionState.idle run.idlePhase hfr,
    Conformance.observedState_eq_none_iff]
  tauto

/-- Witness for C3 at a concrete run: only a non-state-changed event in
the STOPPING window, end-session succeeds, IDLE observed next. -/
theorem C3_teardown_accepts_iff_witness :
    Conformance.teardownVerifier Conformance.sampleTeardownRun = true :=
  (C3_teardown_accepts_iff Conformance.sampleTeardownRun (by decide)).mpr (by decide)

/-- Claim C4: given a run of the out-of-turn scenario in which the
lifecycle itself advances as expected (states observed in order, the
begin/request-exit/end calls succeed, and the negative-timing windows stay
quiet), the verifier accepts exactly when every wait-frame call issued
while the session is not running (before IDLE, after IDLE, in READY before
begin, after end-session, in IDLE and EXITING during shutdown) returns
SESSION_NOT_RUNNING, every begin-session call issued while the session is
already running (in READY after begin, SYNCHRONIZED, VISIBLE, FOCUSED,
FOCUSED after request-exit, VISIBLE, SYNCHRONIZED, STOPPING) returns
SESSION_RUNNING, and the end-session call issued while FOCUSED returns
SESSION_NOT_STOPPING. -/
theorem C4_outOfTurn_error_contracts (run : Conformance.OutOfTurnRun)
    (h1 : Conformance.observedState run.idlePhase = some XrSessionState.idle)
    (h2 : Conformance.observedState run.readyPhase = some XrSessionState.ready)
    (h3 : run.beginSessionResult = XrResult.success)
    (h4 : run.usingGraphicsPlugin = true → Conformance.observedState run.readyWindow = none)
    (h5 : Conformance.submitFramesUntilSessionState XrSessionState.synchronized run.syncPhase =
      DriveResult.success)
    (h6 : Conformance.submitFramesUntilSessionState XrSessionState.visible run.visiblePhase =
      DriveResult.success)
    (h7 : Conformance.submitFramesUntilSessionState XrSessionState.focused run.focusedPhase =
      DriveResult.success)
    (h8 : run.requestExitResult = XrResult.success)
    (h9 : Conformance.submitFramesUntilSessionState XrSessionState.visible run.visibleDownPhase =
      DriveResult.success)
    (h10 : Conformance.submitFramesUntilSessionState XrSessionState.synchronized run.syncDownPhase =
      DriveResult.success)
    (h11 : Conformance.submitFramesUntilSessionState XrSessionState.stopping run.stoppingPhase =
      DriveResult.success)
    (h12 : Conformance.observedState run.stoppingWindow = none)
    (h13 : run.endSessionResult = XrResult.success)
    (h14 : Conformance.submitFramesUntilSessionState XrSessionState.idle run.idleDownPhase =
      DriveResult.success)
    (h15 : Conformance.submitFramesUntilSessionState XrSessionState.exiting run.exitingPhase =
      DriveResult.success) :
    Conformance.outOfTurnVerifier run = true ↔
      ((run.waitFrameBeforeIdleResult = XrResult.errorSessionNotRunning ∧
        run.waitFrameAfterIdleResult = XrResult.errorSessionNotRunning ∧
        run.waitFrameInReadyResult = XrResult.errorSessionNotRunning ∧
        run.waitFrameAfterEndResult = XrResult.errorSessionNotRunning ∧
        run.waitFrameInIdleShutdownResult = XrResult.errorSessionNotRunning ∧
        run.waitFrameInExitingResult = XrResult.errorSessionNotRunning) ∧
       (run.secondBeginInReadyResult = XrResult.errorSessionRunning ∧
        run.beginInSynchronizedResult = XrResult.errorSessionRunning ∧
        run.beginInVisibleResult = XrResult.errorSessionRunning ∧
        run.beginInFocusedResult = XrResult.errorSessionRunning ∧
        run.beginAfterExitInFocusedResult = XrResult.errorSessionRunning ∧
        run.beginAfterExitInVisibleResult = XrResult.errorSessionRunning ∧
        run.beginAfterExitInSynchronizedResult = XrResult.errorSessionRunning ∧
        run.beginInStoppingResult = XrResult.errorSessionRunning) ∧
       run.endInFocusedResult = XrResult.errorSessionNotStopping) := by
  have hgw : (!run.usingGraphicsPlugin ||
      decide (Conformance.observedState run.readyWindow = none)) = true := by
    cases hg : run.usingGraphicsPlugin
    · rfl
    · simp [h4 hg]
  simp only [Conformance.outOfTurnVerifier, hgw, h1, h2, h3, h5, h6, h7, h8, h9, h10,
    h11, h12, h13, h14, h15, Bool.and_eq_true, decide_eq_true_eq, Bool.true_and,
    and_true, true_and, eq_self_iff_true]
  tauto

/-- Witness for C4 at a concrete run in which the lifecycle advances
normally and every probed call returns the required error code. -/
theorem C4_outOfTurn_error_contracts_witness :
    Conformance.outOfTurnVerifier Conformance.sampleOutOfTurnRun = true :=
  (C4_outOfTurn_error_contracts Conformance.sampleOutOfTurnRun (by decide) (by decide)
    (by decide) (by decide) (by decide) (by decide) (by decide) (by decide) (by decide)
    (by decide) (by decide) (by decide) (by decide) (by decide) (by decide)).mpr (by decide)

/-- Claim C5: the integer-range classification queries return bit depth 8
for u8 and s8, 16 for u16 and s16, 32 for u32 and s32, and 10 for
uRGB10A2; signedness true for s8, s16, s32 and false for u8, u16, u32,
uRGB10A2; and each query applied to NoIntegerColor raises a logic error
instead of returning a value. -/
theorem C5_classification_query_values :
    SwapchainFormat.ColorIntegerRangeBits SwapchainFormat.ColorIntegerRange.u8 = Except.ok 8 ∧
    SwapchainFormat.ColorIntegerRangeBits SwapchainFormat.ColorIntegerRange.s8 = Except.ok 8 ∧
    SwapchainFormat.ColorIntegerRangeBits SwapchainFormat.ColorIntegerRange.u16 = Except.ok 16 ∧
    SwapchainFormat.ColorIntegerRangeBits SwapchainFormat.ColorIntegerRange.s16 = Except.ok 16 ∧
    SwapchainFormat.ColorIntegerRangeBits SwapchainFormat.ColorIntegerRange.u32 = Except.ok 32 ∧
    SwapchainFormat.ColorIntegerRangeBits SwapchainFormat.ColorIntegerRange.s32 = Except.ok 32 ∧
    SwapchainFormat.ColorIntegerRangeBits SwapchainFormat.ColorIntegerRange.uRGB10A2 =
      Except.ok 10 ∧
    SwapchainFormat.ColorIntegerRangeIsSigned SwapchainFormat.ColorIntegerRange.s8 =
      Except.ok true ∧
    SwapchainFormat.ColorIntegerRangeIsSigned SwapchainFormat.ColorIntegerRange.s16 =
      Except.ok true ∧
    SwapchainFormat.ColorIntegerRangeIsSigned SwapchainFormat.ColorIntegerRange.s32 =
      Except.ok true ∧
    SwapchainFormat.ColorIntegerRangeIsSigned SwapchainFormat.ColorIntegerRange.u8 =
      Except.ok false ∧
    SwapchainFormat.ColorIntegerRangeIsSigned SwapchainFormat.ColorIntegerRange.u16 =
      Except.ok false ∧
    SwapchainFormat.ColorIntegerRangeIsSigned SwapchainFormat.ColorIntegerRange.u32 =
      Except.ok false ∧
    SwapchainFormat.ColorIntegerRangeIsSigned SwapchainFormat.ColorIntegerRange.uRGB10A2 =
      Except.ok false ∧
    SwapchainFormat.ColorIntegerRangeBits SwapchainFormat.ColorIntegerRange.NoIntegerColor =
      Except.error SwapchainFormat.ClassificationError.onlyValidForIntegerColors ∧
    SwapchainFormat.ColorIntegerRangeIsSigned SwapchainFormat.ColorIntegerRange.NoIntegerColor =
      Except.error SwapchainFormat.ClassificationError.onlyValidForIntegerColors := by
  decide

/-- Claim C6: when the test mode uses a graphics plugin, the verifier
begins the session upon READY (successfully) and then accepts exactly when
no session-state-changed event — in particular no READY to SYNCHRONIZED
transition — is delivered during the 1-second window in which no frame is
submitted; any session-state-changed event delivered in that window fails
the scenario. -/
theorem C6_advance_requires_frame_submission (run : Conformance.AdvanceRun)
    (hg : run.usingGraphicsPlugin = true)
    (hb : run.beginSessionResult = XrResult.success) :
    Conformance.advanceWithoutFramesVerifier run = true ↔
      ∀ e ∈ run.readyWindow.flatten, e.isSessionStateChanged = false := by
  simp only [Conformance.advanceWithoutFramesVerifier, hg, hb, Bool.not_true, Bool.false_or,
    Bool.and_eq_true, decide_eq_true_eq, Conformance.observedState_eq_none_iff,
    eq_self_iff_true, true_and]

/-- Witness for C6 at a concrete graphics-mode run delivering only a
non-state-changed event in the window. -/
theorem C6_advance_requires_frame_submission_witness :
    Conformance.advanceWithoutFramesVerifier Conformance.sampleAdvanceRun = true :=
  (C6_advance_requires_frame_submission Conformance.sampleAdvanceRun (by decide)
    (by decide)).mpr (by decide)

/-- Claim C7: for every queue of pending events, `tryGetNextSessionState`
returns empty exactly when the queue holds no session-state-changed event
(and then the queue is fully drained); and when the queue is a run of
non-matching events followed by a session-state-changed event, that first
matching event is returned, every preceding non-matching event having been
consumed and discarded (the events after the match are left in the queue,
the discarded ones are gone). -/
theorem C7_tryGetNextSessionState_filtering (q : List XrEvent) :
    ((Conformance.tryGetNextSessionState q).1 = none ↔
      ∀ e ∈ q, e.isSessionStateChanged = false) ∧
    ((Conformance.tryGetNextSessionState q).1 = none →
      Conformance.tryGetNextSessionState q = (none, [])) ∧
    (∀ pre s t post, (∀ e ∈ pre, e.isSessionStateChanged = false) →
      q = pre ++ XrEvent.sessionStateChanged s t :: post →
      Conformance.tryGetNextSessionState q = (some (s, t), post)) := by
  refine ⟨Conformance.firstSessionState_eq_none_iff q,
    Conformance.tryGetNextSessionState_none_drains q, ?_⟩
  rintro pre s t post hpre rfl
  exact Conformance.tryGetNextSessionState_skips_discarded pre s t post hpre

/-- Witness for C7 at a concrete queue: a non-matching event precedes an
IDLE state-changed event; the match is returned and the preceding event is
discarded. -/
theorem C7_tryGetNextSessionState_filtering_witness :
    Conformance.tryGetNextSessionState
      [XrEvent.other 0, XrEvent.sessionStateChanged XrSessionState.idle 5, XrEvent.other 1] =
      (some (XrSessionState.idle, 5), [XrEvent.other 1]) :=
  (C7_tryGetNextSessionState_filtering
      [XrEvent.other 0, XrEvent.sessionStateChanged XrSessionState.idle 5,
        XrEvent.other 1]).2.2
    [XrEvent.other 0] XrSessionState.idle 5 [XrEvent.other 1] (by decide) rfl

/-- Claim C8 counterexample: the claim says positive assertions (the call
must return non-empty) use a long, e.g. 30-second, deadline.  In the code
every `waitForNextSessionState` call site uses the 1-second default: in
particular the very first site (line 115, advancing to IDLE, a positive
assertion) runs under the same 1-second deadline as the negative sites,
refuting both "positive uses are made with a long deadline" and "positive
and negative assertions use different deadlines". -/
theorem C8_positive_sites_use_default_deadline :
    (Conformance.waitForNextSessionStateCallSites.head? =
      some ⟨true, Conformance.waitDefaultDurationNs⟩) ∧
    Conformance.waitDefaultDurationNs ≠ Conformance.driveDefaultDurationNs ∧
    ¬ (∀ c ∈ Conformance.waitForNextSessionStateCallSites,
        c.expectsEvent = true → c.durationNs = Conformance.driveDefaultDurationNs) := by
  decide

/-- Claim C8 as amended: every `waitForNextSessionState` call site —
positive and negative alike — runs under the same 1-second default
deadline; the long 30-second deadline is the default of
`submitFramesUntilSessionState` (the drive-to-state primitive), not of
`waitForNextSessionState`. -/
theorem C8_all_sites_use_default_deadline :
    (Conformance.waitForNextSessionStateCallSites.all
      fun c => c.durationNs == Conformance.waitDefaultDurationNs) = true ∧
    Conformance.waitDefaultDurationNs = 1000000000 ∧
    Conformance.driveDefaultDurationNs = 30000000000 := by
  decide

/-- Claim C9: the two copies of the session-state driver helpers (corpus
lines 33-95 and 388-450 of the same file) are pairwise extensionally
equal: for every input each function of the first copy produces the same
result, the same event-queue consumption, and the same success or failure
outcome as its counterpart in the second copy. -/
theorem C9_duplicate_copies_extensionally_equal :
    (∀ q, Conformance.tryReadEvent q = Conformance2.tryReadEvent q) ∧
    (∀ q, Conformance.tryGetNextSessionState q = Conformance2.tryGetNextSessionState q) ∧
    (∀ wakes, Conformance.waitForNextSessionState wakes =
      Conformance2.waitForNextSessionState wakes) ∧
    (∀ fr, Conformance.submitFrame fr = Conformance2.submitFrame fr) ∧
    (∀ expected iters, Conformance.submitFramesUntilSessionState expected iters =
      Conformance2.submitFramesUntilSessionState expected iters) :=
  ⟨tryReadEvent_copies_agree, tryGetNextSessionState_copies_agree,
   waitForNextSessionState_copies_agree, submitFrame_copies_agree,
   submitFramesUntilSessionState_copies_agree⟩

/-- Claim C10: the classification switches are total over the eight
declared enumerators of `ColorIntegerRange`: for every declared
enumerator an explicit case matches, so the defensive "Missing case in
implementation" default branch is unreachable for any value of the
declared enumeration. -/
theorem C10_classification_total_on_declared (c : SwapchainFormat.ColorIntegerRange) :
    SwapchainFormat.ColorIntegerRangeBits c ≠
      Except.error SwapchainFormat.ClassificationError.missingCase ∧
    SwapchainFormat.ColorIntegerRangeIsSigned c ≠
      Except.error SwapchainFormat.ClassificationError.missingCase := by
  cases c <;> exact ⟨by decide, by decide⟩
